import Mathlib

/-!
# SchemaTreeBuilder: the command-line driver `main.go`

A shallow embedding of `func main` of `main.go`: the flag definitions, the two
global hooks of the root command (`PersistentPreRun`, `PersistentPostRun`) and the
`Run` bodies of the five runnable subcommands.

The driver is effectful: every call it makes to the operating system, the Go
runtime, or the packages `schematree` and `preparation` is recorded as an `Event`,
in program order.  The result of such a call (success, or the error it reports) is
supplied by an environment `Env`, so that every theorem quantifies over all
behaviours of the collaborators.  `log.Fatal` and `log.Panicln` end the run; they
are the `Outcome` of a `Result`.
-/

namespace SchemaTreeBuilder

/-! ## Flags and the variables they write -/

/-- The variables of `main` that a flag definition binds (`main.go` lines 25-28, and
`numPointersInNode`, `everyNthSubject`, which `main.go` uses at lines 151 and 243). -/
inductive Var
  | cpuprofile
  | memprofile
  | traceFile
  | measureTime
  | firstNsubjects
  | writeOutPropertyFreqs
  | numPointersInNode
  | everyNthSubject
  deriving DecidableEq, Repr

/-- A flag value, tagged with the Go type of the pflag definition that reads it:
`StringVar`, `BoolVarP`, `Int64VarP`, `IntVar`, `UintVarP`. -/
inductive FlagValue
  | str (s : String)
  | bool (b : Bool)
  | int64 (i : Int)
  | int (i : Int)
  | uint (n : Nat)
  deriving DecidableEq, Repr

/-- One flag definition: the variable it writes, its long name, its one-letter
shorthand (empty when it has none), its default value and its usage text. -/
structure FlagDecl where
  target : Var
  name : String
  shorthand : String
  value : FlagValue
  usage : String
  deriving DecidableEq, Repr

/-- The flag-bound variables, plus the helper variable `timeCheckpoint` (line 31).
`time.Time` values are clock readings in nanoseconds. -/
structure Vars where
  cpuprofile : String
  memprofile : String
  traceFile : String
  measureTime : Bool
  firstNsubjects : Int
  writeOutPropertyFreqs : Bool
  numPointersInNode : Int
  everyNthSubject : Nat
  timeCheckpoint : Nat
  deriving DecidableEq, Repr

/-- Go zero values: the state of the variables at their `var` declarations.  The
declarations of `numPointersInNode` and `everyNthSubject` are not in `main.go`; the
value they start with is overwritten by the flag definitions (see `definedVars`). -/
def Vars.zero : Vars :=
  { cpuprofile := "", memprofile := "", traceFile := "", measureTime := false,
    firstNsubjects := 0, writeOutPropertyFreqs := false, numPointersInNode := 0,
    everyNthSubject := 0, timeCheckpoint := 0 }

/-- Whether a value can be stored in a variable: the Go type must agree and the
number must fit (`int64`; `int` and `uint` are 64 bits wide). -/
def Var.accepts : Var → FlagValue → Bool
  | .cpuprofile, .str _ => true
  | .memprofile, .str _ => true
  | .traceFile, .str _ => true
  | .measureTime, .bool _ => true
  | .firstNsubjects, .int64 i => decide (-(2 ^ 63 : Int) ≤ i ∧ i < 2 ^ 63)
  | .writeOutPropertyFreqs, .bool _ => true
  | .numPointersInNode, .int i => decide (-(2 ^ 63 : Int) ≤ i ∧ i < 2 ^ 63)
  | .everyNthSubject, .uint n => decide (n < 2 ^ 64)
  | _, _ => false

/-- The store through the pointer a flag was defined with. -/
def Vars.assign (v : Vars) : Var → FlagValue → Vars
  | .cpuprofile, .str s => { v with cpuprofile := s }
  | .memprofile, .str s => { v with memprofile := s }
  | .traceFile, .str s => { v with traceFile := s }
  | .measureTime, .bool b => { v with measureTime := b }
  | .firstNsubjects, .int64 i => { v with firstNsubjects := i }
  | .writeOutPropertyFreqs, .bool b => { v with writeOutPropertyFreqs := b }
  | .numPointersInNode, .int i => { v with numPointersInNode := i }
  | .everyNthSubject, .uint n => { v with everyNthSubject := n }
  | _, _ => v

/-- Lines 107-110: `cmdRoot.PersistentFlags()`. -/
def cmdRootPersistentFlags : List FlagDecl :=
  [ ⟨.cpuprofile, "cpuprofile", "", .str "", "write cpu profile to `file`"⟩,
    ⟨.memprofile, "memprofile", "", .str "", "write memory profile to `file`"⟩,
    ⟨.traceFile, "trace", "", .str "", "write execution trace to `file`"⟩,
    ⟨.measureTime, "time", "t", .bool false, "measure time of command execution"⟩ ]

/-- Lines 146-151: `cmdBuildTreeTyped.Flags()`. -/
def cmdBuildTreeTypedFlags : List FlagDecl :=
  [ ⟨.firstNsubjects, "first", "n", .int64 0, "only parse the first `n` subjects"⟩,
    ⟨.writeOutPropertyFreqs, "write-frequencies", "f", .bool false,
      "write all property frequencies to a csv file named '<dataset>.propertyFreqs.csv' after the SchemaTree is built"⟩,
    ⟨.numPointersInNode, "num-pointers-typed", "", .int 3,
      "The number of pointers sotred directly in the node"⟩ ]

/-- Lines 182-186: `cmdBuildTree.Flags()`. -/
def cmdBuildTreeFlags : List FlagDecl :=
  [ ⟨.firstNsubjects, "first", "n", .int64 0, "only parse the first `n` subjects"⟩,
    ⟨.writeOutPropertyFreqs, "write-frequencies", "f", .bool false,
      "write all property frequencies to a csv file named '<dataset>.propertyFreqs.csv' after the SchemaTree is built"⟩ ]

/-- Line 243: `cmdSplitDatasetBySampling.Flags()`. -/
def cmdSplitDatasetBySamplingFlags : List FlagDecl :=
  [ ⟨.everyNthSubject, "nth", "n", .uint 1000, "split every N-th subject"⟩ ]

/-- The runnable subcommands (those with a `Run` body). -/
inductive Command
  | cmdBuildTreeTyped
  | cmdBuildTree
  | cmdSplitDatasetByPrefix
  | cmdSplitDatasetBySampling
  | cmdFilterDatasetForSchematree
  deriving DecidableEq, Repr

/-- The local flags of a subcommand. -/
def Command.Flags : Command → List FlagDecl
  | .cmdBuildTreeTyped => cmdBuildTreeTypedFlags
  | .cmdBuildTree => cmdBuildTreeFlags
  | .cmdSplitDatasetByPrefix => []
  | .cmdSplitDatasetBySampling => cmdSplitDatasetBySamplingFlags
  | .cmdFilterDatasetForSchematree => []

/-- Defining a flag stores its default through the bound pointer. -/
def defineFlags (decls : List FlagDecl) (v : Vars) : Vars :=
  decls.foldl (fun acc f => acc.assign f.target f.value) v

/-- The variables when `cmdRoot.Execute()` is reached (line 290): every flag
definition of `main`, in source order, has stored its default. -/
def definedVars : Vars :=
  defineFlags
    (cmdRootPersistentFlags ++ cmdBuildTreeTypedFlags ++ cmdBuildTreeFlags
      ++ cmdSplitDatasetBySamplingFlags)
    Vars.zero

/-- How a flag is written on the command line: `--name` or `-x`. -/
inductive FlagKey
  | long (name : String)
  | short (letter : String)
  deriving DecidableEq, Repr

/-- Whether a flag definition is the one a command-line key names. -/
def FlagDecl.answers (f : FlagDecl) : FlagKey → Bool
  | .long n => n == f.name
  | .short s => f.shorthand != "" && s == f.shorthand

/-- Flag parsing of the selected command: each flag given is looked up among the
flags the command accepts and its value stored; an unknown flag or a value that
does not fit ends parsing with an error. -/
def parseFlags (decls : List FlagDecl) : List (FlagKey × FlagValue) → Vars → Except String Vars
  | [], v => .ok v
  | (k, val) :: rest, v =>
    match decls.find? (fun f => f.answers k) with
    | none => .error "unknown flag"
    | some f =>
      if f.target.accepts val then parseFlags decls rest (v.assign f.target val)
      else .error "invalid argument"

/-! ## Effects -/

/-- Go's `uint64(x)` for a signed 64-bit `x`: the value modulo `2^64`. -/
def uint64 (x : Int) : Nat := (x % 2 ^ 64).toNat

/-- Go's `int64(x)` for an unsigned 64-bit `x`. -/
def int64 (x : Nat) : Int :=
  if x % 2 ^ 64 < 2 ^ 63 then (x % 2 ^ 64 : Nat) else (x % 2 ^ 64 : Nat) - 2 ^ 64

/-- The record `preparation.SplitByPrefix` returns. -/
structure SplitStats where
  ItemCount : Nat
  PropCount : Nat
  MiscCount : Nat
  deriving DecidableEq, Repr

/-- The record `preparation.FilterForSchematree` returns. -/
structure FilterStats where
  KeptCount : Nat
  LostCount : Nat
  deriving DecidableEq, Repr

/-- A call the driver makes, with its arguments. -/
inductive Event
  /-- Call `os.Create(path)` -/
  | osCreate (path : String)
  /-- Call `pprof.StartCPUProfile(f)`, `f` the file created at `path` -/
  | startCPUProfile (path : String)
  /-- Call `trace.Start(f)`, `f` the file created at `path` -/
  | traceStart (path : String)
  /-- Call `time.Now()`, with the reading -/
  | timeNow (t : Nat)
  /-- Call `fmt.Println("Execution Time:", d)`, `d = time.Since(timeCheckpoint)` -/
  | printExecutionTime (d : Int)
  /-- Call `pprof.StopCPUProfile()` -/
  | stopCPUProfile
  /-- Call `runtime.GC()` -/
  | runtimeGC
  /-- Call `pprof.WriteHeapProfile(f)`, `f` the file created at `path` -/
  | writeHeapProfile (path : String)
  /-- Call `f.Close()` -/
  | fileClose (path : String)
  /-- Call `trace.Stop()` -/
  | traceStop
  /-- Call `schematree.Create(fileName, firstNsubjects, typed, fourth)` -/
  | schematreeCreate (fileName : String) (firstNsubjects : Nat) (typed : Bool) (fourth : Nat)
  /-- Call `schema.WritePropFreqs(path)` -/
  | writePropFreqs (path : String)
  /-- Call `schema.WriteTypeFreqs(path)` -/
  | writeTypeFreqs (path : String)
  /-- Call `fmt.Printf` with the formatted text -/
  | printf (text : String)
  /-- Call `preparation.SplitByPrefix(fileName)` -/
  | splitByPrefix (fileName : String)
  /-- The four statistics lines printed after the split (lines 219-222) -/
  | printSplitStats (stats : SplitStats)
  /-- Call `preparation.SplitBySampling(fileName, oneInN)` -/
  | splitBySampling (fileName : String) (oneInN : Int)
  /-- Call `preparation.FilterForSchematree(fileName)` -/
  | filterForSchematree (fileName : String)
  /-- The three statistics lines printed after the filter (lines 273-275) -/
  | printFilterStats (stats : FilterStats)
  deriving DecidableEq, Repr

/-- How a run ends. -/
inductive Outcome
  /-- the code ran to its end -/
  | completed
  /-- Exit by `log.Fatal`: the message is logged and the process exits with status 1 -/
  | fatal (msg : String)
  /-- Exit by `log.Panicln`: the message is logged and the goroutine panics -/
  | panicked (msg : String)
  /-- flag parsing failed; no hook and no `Run` body is executed -/
  | usage (msg : String)
  deriving DecidableEq, Repr

/-- The calls made so far, how the code ended, and the variables. -/
structure Result where
  events : List Event
  outcome : Outcome
  vars : Vars
  deriving DecidableEq, Repr

/-- What the world answers to each call: `none` is success, `some err` the error
reported (its `Error()` text).  Calls made at different places of the source may
be answered differently. -/
structure Env where
  createCpuprofile : String → Option String
  startCPUProfile : Option String
  createTraceFile : String → Option String
  traceStart : Option String
  createMemprofile : String → Option String
  writeHeapProfile : Option String
  clockAtPreRun : Nat
  clockAtPostRun : Nat
  schematreeCreate : String → Nat → Bool → Nat → Option String
  writePropFreqs : String → Option String
  writeTypeFreqs : String → Option String
  splitByPrefix : String → Except String SplitStats
  splitBySampling : String → Int → Option String
  filterForSchematree : String → Except String FilterStats

/-- Sequential composition: the continuation runs only if the first part ran to its
end. -/
def Result.andThen (r : Result) (k : Vars → Result) : Result :=
  match r.outcome with
  | .completed => ⟨r.events ++ (k r.vars).events, (k r.vars).outcome, (k r.vars).vars⟩
  | _ => r

/-- Nothing happens. -/
def skip (v : Vars) : Result := ⟨[], .completed, v⟩

/-- A call whose result is not inspected. -/
def emit (e : Event) (v : Vars) : Result := ⟨[e], .completed, v⟩

/-- A call followed by `if err != nil { onErr(err) }`. -/
def call (e : Event) (err : Option String) (onErr : String → Outcome) (v : Vars) : Result :=
  match err with
  | some msg => ⟨[e], onErr msg, v⟩
  | none => ⟨[e], .completed, v⟩

/-- Go's `log.Fatal(text, err)`: the operands are printed without a separator, as the
first is a string. -/
def logFatal (text : String) (err : String) : Outcome := .fatal (text ++ err)

/-- Go's `log.Panicln(err)` -/
def logPanicln (err : String) : Outcome := .panicked (err ++ "\n")

/-! ## The hooks of the root command -/

/-- Lines 42-51: write cpu profile to file - open file and start profiling. -/
def startCpuProfiling (env : Env) (v : Vars) : Result :=
  if v.cpuprofile ≠ "" then
    (call (.osCreate v.cpuprofile) (env.createCpuprofile v.cpuprofile)
        (logFatal "could not create CPU profile: ") v).andThen
      (call (.startCPUProfile v.cpuprofile) env.startCPUProfile
        (logFatal "could not start CPU profile: "))
  else skip v

/-- Lines 53-62: write trace execution to file - open file and start tracing. -/
def startTracing (env : Env) (v : Vars) : Result :=
  if v.traceFile ≠ "" then
    (call (.osCreate v.traceFile) (env.createTraceFile v.traceFile)
        (logFatal "could not create trace file: ") v).andThen
      (call (.traceStart v.traceFile) env.traceStart
        (logFatal "could not start tracing: "))
  else skip v

/-- Lines 64-68: measure time - start measuring the time. -/
def startMeasuringTime (env : Env) (v : Vars) : Result :=
  if v.measureTime = true then
    ⟨[.timeNow env.clockAtPreRun], .completed, { v with timeCheckpoint := env.clockAtPreRun }⟩
  else skip v

/-- Lines 40-70. -/
def PersistentPreRun (env : Env) (v : Vars) : Result :=
  (startCpuProfiling env v).andThen fun v =>
  (startTracing env v).andThen fun v =>
  startMeasuringTime env v

/-- Lines 75-78: measure time - stop time measurement and print the measurements. -/
def printMeasuredTime (env : Env) (v : Vars) : Result :=
  if v.measureTime = true then
    emit (.printExecutionTime ((env.clockAtPostRun : Int) - (v.timeCheckpoint : Int))) v
  else skip v

/-- Lines 80-83: write cpu profile to file - stop profiling. -/
def stopCpuProfiling (v : Vars) : Result :=
  if v.cpuprofile ≠ "" then emit .stopCPUProfile v else skip v

/-- Lines 85-96: write memory profile to file. -/
def writeMemoryProfile (env : Env) (v : Vars) : Result :=
  if v.memprofile ≠ "" then
    (call (.osCreate v.memprofile) (env.createMemprofile v.memprofile)
        (logFatal "could not create memory profile: ") v).andThen fun v =>
    (emit .runtimeGC v).andThen fun v =>
    (call (.writeHeapProfile v.memprofile) env.writeHeapProfile
        (logFatal "could not write memory profile: ") v).andThen
      (emit (.fileClose v.memprofile))
  else skip v

/-- Lines 98-101: write trace execution to file - stop tracing. -/
def stopTracing (v : Vars) : Result :=
  if v.traceFile ≠ "" then emit .traceStop v else skip v

/-- Lines 73-103. -/
def PersistentPostRun (env : Env) (v : Vars) : Result :=
  (printMeasuredTime env v).andThen fun v =>
  (stopCpuProfiling v).andThen fun v =>
  (writeMemoryProfile env v).andThen fun v =>
  stopTracing v

/-! ## The `Run` bodies -/

/-- Lines 122-141.  `inputDataset` is `args[0]`. -/
def cmdBuildTreeTypedRun (env : Env) (inputDataset : String) (v : Vars) : Result :=
  (call (.schematreeCreate inputDataset (uint64 v.firstNsubjects) true 0)
      (env.schematreeCreate inputDataset (uint64 v.firstNsubjects) true 0) logPanicln v).andThen
    fun v =>
  if v.writeOutPropertyFreqs then
    (emit (.writePropFreqs (inputDataset ++ ".propertyFreqs.csv")) v).andThen fun v =>
    (emit (.printf ("Wrote PropertyFreqs to " ++ (inputDataset ++ ".propertyFreqs.csv") ++ "\n"))
      v).andThen fun v =>
    (emit (.writeTypeFreqs (inputDataset ++ ".typeFreqs.csv")) v).andThen
      (emit (.printf ("Wrote PropertyFreqs to " ++ (inputDataset ++ ".typeFreqs.csv") ++ "\n")))
  else skip v

/-- Lines 163-178. -/
def cmdBuildTreeRun (env : Env) (inputDataset : String) (v : Vars) : Result :=
  (call (.schematreeCreate inputDataset (uint64 v.firstNsubjects) false 0)
      (env.schematreeCreate inputDataset (uint64 v.firstNsubjects) false 0) logPanicln v).andThen
    fun v =>
  if v.writeOutPropertyFreqs then
    (emit (.writePropFreqs (inputDataset ++ ".propertyFreqs.csv")) v).andThen
      (emit (.printf ("Wrote PropertyFreqs to " ++ (inputDataset ++ ".propertyFreqs.csv") ++ "\n")))
  else skip v

/-- Lines 208-224. -/
def cmdSplitDatasetByPrefixRun (env : Env) (inputDataset : String) (v : Vars) : Result :=
  match env.splitByPrefix inputDataset with
  | .error err => ⟨[.splitByPrefix inputDataset], logPanicln err, v⟩
  | .ok sStats => ⟨[.splitByPrefix inputDataset, .printSplitStats sStats], .completed, v⟩

/-- Lines 238-241: the value `preparation.SplitBySampling` returns is dropped. -/
def cmdSplitDatasetBySamplingRun (_env : Env) (inputDataset : String) (v : Vars) : Result :=
  emit (.splitBySampling inputDataset (int64 v.everyNthSubject)) v

/-- Lines 262-277. -/
def cmdFilterDatasetForSchematreeRun (env : Env) (inputDataset : String) (v : Vars) : Result :=
  match env.filterForSchematree inputDataset with
  | .error err => ⟨[.filterForSchematree inputDataset], logPanicln err, v⟩
  | .ok sStats => ⟨[.filterForSchematree inputDataset, .printFilterStats sStats], .completed, v⟩

/-- The `Run` field of each subcommand. -/
def Command.Run : Command → Env → String → Vars → Result
  | .cmdBuildTreeTyped => cmdBuildTreeTypedRun
  | .cmdBuildTree => cmdBuildTreeRun
  | .cmdSplitDatasetByPrefix => cmdSplitDatasetByPrefixRun
  | .cmdSplitDatasetBySampling => cmdSplitDatasetBySamplingRun
  | .cmdFilterDatasetForSchematree => cmdFilterDatasetForSchematreeRun

/-- A command line that selects a runnable subcommand and passes
`cobra.ExactArgs(1)`: the subcommand, the flags given, and the one positional
argument. -/
structure Invocation where
  cmd : Command
  given : List (FlagKey × FlagValue)
  dataset : String
  deriving DecidableEq, Repr

/-- Line 290, `cmdRoot.Execute()`, for a subcommand of the root: the flags of the
subcommand and the persistent flags of the root are parsed, then the root's
`PersistentPreRun`, the subcommand's `Run` and the root's `PersistentPostRun` run in
this order.  A step that does not run to its end ends the process. -/
def Execute (env : Env) (inv : Invocation) : Result :=
  match parseFlags (inv.cmd.Flags ++ cmdRootPersistentFlags) inv.given definedVars with
  | .error msg => ⟨[], .usage msg, definedVars⟩
  | .ok v =>
    (PersistentPreRun env v).andThen fun v =>
    (inv.cmd.Run env inv.dataset v).andThen (PersistentPostRun env)

/-! ## Observations on a run -/

/-- The arguments of every `schematree.Create` call of a run, in order. -/
def createCalls (es : List Event) : List (String × Nat × Bool × Nat) :=
  es.filterMap fun e =>
    match e with
    | .schematreeCreate f n t x => some (f, n, t, x)
    | _ => none

/-- A frequency listing written to a path. -/
inductive Export
  | propertyListing (path : String)
  | typeListing (path : String)
  deriving DecidableEq, Repr

/-- The frequency exports a run requests, in order. -/
def exportsRequested (es : List Event) : List Export :=
  es.filterMap fun e =>
    match e with
    | .writePropFreqs p => some (.propertyListing p)
    | .writeTypeFreqs p => some (.typeListing p)
    | _ => none

/-- The exports of a build command as the command surface describes them (the
second definition of the comparison, written from the description, not from the
code): none without `--write-frequencies` or after a failed build; otherwise the
property listing, followed for `build-tree-typed` by the type listing. -/
def frequencyExports (typed writeFrequencies buildFailed : Bool) (d : String) : List Export :=
  if writeFrequencies && !buildFailed then
    if typed then [.propertyListing (d ++ ".propertyFreqs.csv"), .typeListing (d ++ ".typeFreqs.csv")]
    else [.propertyListing (d ++ ".propertyFreqs.csv")]
  else []

/-- The calls that set up, stop or write a CPU profile, heap profile or trace. -/
def Event.isProfilingOp : Event → Bool
  | .osCreate _ => true
  | .startCPUProfile _ => true
  | .traceStart _ => true
  | .stopCPUProfile => true
  | .runtimeGC => true
  | .writeHeapProfile _ => true
  | .fileClose _ => true
  | .traceStop => true
  | _ => false

/-- The calls made by the `Run` body of a subcommand. -/
def Event.isSubcommandWork : Event → Bool
  | .schematreeCreate _ _ _ _ => true
  | .writePropFreqs _ => true
  | .writeTypeFreqs _ => true
  | .printf _ => true
  | .splitByPrefix _ => true
  | .printSplitStats _ => true
  | .splitBySampling _ _ => true
  | .filterForSchematree _ => true
  | .printFilterStats _ => true
  | _ => false

/-- The reading of the clock that starts the measurement. -/
def Event.isTimeNow : Event → Bool
  | .timeNow _ => true
  | _ => false

/-- The line that ends the measurement. -/
def Event.isPrintExecutionTime : Event → Bool
  | .printExecutionTime _ => true
  | _ => false

/-- The calls of a run made after the time checkpoint is taken and before the
elapsed time is computed and printed. -/
def measuredInterval (es : List Event) : List Event :=
  ((es.dropWhile fun e => !e.isTimeNow).drop 1).takeWhile fun e => !e.isPrintExecutionTime

/-- Whether `Outcome` is a `log.Fatal` exit. -/
def Outcome.isFatal : Outcome → Bool
  | .fatal _ => true
  | _ => false

/-- The CPU profile was requested and creating its file or starting it fails. -/
def cpuProfileSetupFails (env : Env) (v : Vars) : Prop :=
  v.cpuprofile ≠ "" ∧ (env.createCpuprofile v.cpuprofile ≠ none ∨ env.startCPUProfile ≠ none)

/-- The trace was requested and creating its file or starting it fails. -/
def traceSetupFails (env : Env) (v : Vars) : Prop :=
  v.traceFile ≠ "" ∧ (env.createTraceFile v.traceFile ≠ none ∨ env.traceStart ≠ none)

/-- The heap profile was requested and creating its file or writing it fails. -/
def heapProfileFails (env : Env) (v : Vars) : Prop :=
  v.memprofile ≠ "" ∧ (env.createMemprofile v.memprofile ≠ none ∨ env.writeHeapProfile ≠ none)

/-- No call for a requested measurement output fails. -/
def measurementsSucceed (env : Env) (v : Vars) : Prop :=
  ¬ cpuProfileSetupFails env v ∧ ¬ traceSetupFails env v ∧ ¬ heapProfileFails env v

/-- A subcommand defines a flag bound to the number of pointers stored directly in
a node. -/
def exposesThreshold (cmd : Command) : Prop :=
  ∃ f ∈ cmd.Flags ++ cmdRootPersistentFlags, f.target = Var.numPointersInNode

/-- An environment in which every call succeeds. -/
def envOk : Env :=
  { createCpuprofile := fun _ => none, startCPUProfile := none,
    createTraceFile := fun _ => none, traceStart := none,
    createMemprofile := fun _ => none, writeHeapProfile := none,
    clockAtPreRun := 10, clockAtPostRun := 25,
    schematreeCreate := fun _ _ _ _ => none,
    writePropFreqs := fun _ => none, writeTypeFreqs := fun _ => none,
    splitByPrefix := fun _ => .ok ⟨1, 2, 3⟩,
    splitBySampling := fun _ _ => none,
    filterForSchematree := fun _ => .ok ⟨1, 2⟩ }

/-- An environment in which `preparation.SplitBySampling` reports a failure. -/
def envSamplingFails : Env :=
  { envOk with splitBySampling := fun f _ => some ("open " ++ f ++ ": no such file or directory") }

/-- An environment in which no file can be created. -/
def envCreateFails : Env :=
  { envOk with
    createCpuprofile := fun f => some ("open " ++ f ++ ": permission denied"),
    createTraceFile := fun f => some ("open " ++ f ++ ": permission denied"),
    createMemprofile := fun f => some ("open " ++ f ++ ": permission denied") }

/-- An environment in which `schematree.Create` reports a failure. -/
def envBuildFails : Env :=
  { envOk with schematreeCreate := fun f _ _ _ => some ("open " ++ f ++ ": no such file or directory") }


/-! ## Sequencing -/

theorem andThen_events (r : Result) (k : Vars → Result) :
    (r.andThen k).events =
      r.events ++ (if r.outcome = .completed then (k r.vars).events else []) := by
  unfold Result.andThen
  split <;> simp_all

theorem andThen_outcome (r : Result) (k : Vars → Result) :
    (r.andThen k).outcome = if r.outcome = .completed then (k r.vars).outcome else r.outcome := by
  unfold Result.andThen
  split <;> simp_all

theorem andThen_vars (r : Result) (k : Vars → Result) :
    (r.andThen k).vars = if r.outcome = .completed then (k r.vars).vars else r.vars := by
  unfold Result.andThen
  split <;> simp_all

/-! ## The steps of the hooks -/

theorem startCpuProfiling_vars (env : Env) (v : Vars) : (startCpuProfiling env v).vars = v := by
  by_cases hc : v.cpuprofile = ""
  · simp [startCpuProfiling, hc, skip]
  · cases h1 : env.createCpuprofile v.cpuprofile <;> cases h2 : env.startCPUProfile <;>
      simp [startCpuProfiling, hc, h1, h2, call, Result.andThen, logFatal]

theorem startCpuProfiling_completed (env : Env) (v : Vars) :
    (startCpuProfiling env v).outcome = .completed ↔ ¬ cpuProfileSetupFails env v := by
  by_cases hc : v.cpuprofile = ""
  · simp [startCpuProfiling, cpuProfileSetupFails, hc, skip]
  · cases h1 : env.createCpuprofile v.cpuprofile <;> cases h2 : env.startCPUProfile <;>
      simp [startCpuProfiling, cpuProfileSetupFails, hc, h1, h2, call, Result.andThen, logFatal]

theorem startCpuProfiling_fatal (env : Env) (v : Vars) (h : cpuProfileSetupFails env v) :
    (startCpuProfiling env v).outcome.isFatal = true := by
  by_cases hc : v.cpuprofile = ""
  · simp [cpuProfileSetupFails, hc] at h
  · cases h1 : env.createCpuprofile v.cpuprofile <;> cases h2 : env.startCPUProfile <;>
      simp_all [startCpuProfiling, cpuProfileSetupFails, call, Result.andThen, logFatal,
        Outcome.isFatal]

theorem startCpuProfiling_events (env : Env) (v : Vars)
    (h : ¬ cpuProfileSetupFails env v) :
    (startCpuProfiling env v).events =
      if v.cpuprofile ≠ "" then [.osCreate v.cpuprofile, .startCPUProfile v.cpuprofile] else [] := by
  by_cases hc : v.cpuprofile = ""
  · simp [startCpuProfiling, hc, skip]
  · cases h1 : env.createCpuprofile v.cpuprofile <;> cases h2 : env.startCPUProfile <;>
      simp_all [startCpuProfiling, cpuProfileSetupFails, call, Result.andThen, logFatal]

theorem startCpuProfiling_profiling (env : Env) (v : Vars) :
    ∀ e ∈ (startCpuProfiling env v).events, e.isProfilingOp = true := by
  by_cases hc : v.cpuprofile = ""
  · simp [startCpuProfiling, hc, skip]
  · cases h1 : env.createCpuprofile v.cpuprofile <;> cases h2 : env.startCPUProfile <;>
      simp [startCpuProfiling, hc, h1, h2, call, Result.andThen, logFatal, Event.isProfilingOp]

theorem startCpuProfiling_mem (env : Env) (v : Vars) (e : Event)
    (h : e ∈ (startCpuProfiling env v).events) :
    v.cpuprofile ≠ "" ∧ (e = .osCreate v.cpuprofile ∨ e = .startCPUProfile v.cpuprofile) := by
  by_cases hc : v.cpuprofile = ""
  · simp [startCpuProfiling, hc, skip] at h
  · cases h1 : env.createCpuprofile v.cpuprofile <;> cases h2 : env.startCPUProfile <;>
      simp_all [startCpuProfiling, call, Result.andThen, logFatal]

theorem startTracing_vars (env : Env) (v : Vars) : (startTracing env v).vars = v := by
  by_cases hc : v.traceFile = ""
  · simp [startTracing, hc, skip]
  · cases h1 : env.createTraceFile v.traceFile <;> cases h2 : env.traceStart <;>
      simp [startTracing, hc, h1, h2, call, Result.andThen, logFatal]

theorem startTracing_completed (env : Env) (v : Vars) :
    (startTracing env v).outcome = .completed ↔ ¬ traceSetupFails env v := by
  by_cases hc : v.traceFile = ""
  · simp [startTracing, traceSetupFails, hc, skip]
  · cases h1 : env.createTraceFile v.traceFile <;> cases h2 : env.traceStart <;>
      simp [startTracing, traceSetupFails, hc, h1, h2, call, Result.andThen, logFatal]

theorem startTracing_fatal (env : Env) (v : Vars) (h : traceSetupFails env v) :
    (startTracing env v).outcome.isFatal = true := by
  by_cases hc : v.traceFile = ""
  · simp [traceSetupFails, hc] at h
  · cases h1 : env.createTraceFile v.traceFile <;> cases h2 : env.traceStart <;>
      simp_all [startTracing, traceSetupFails, call, Result.andThen, logFatal, Outcome.isFatal]

theorem startTracing_events (env : Env) (v : Vars) (h : ¬ traceSetupFails env v) :
    (startTracing env v).events =
      if v.traceFile ≠ "" then [.osCreate v.traceFile, .traceStart v.traceFile] else [] := by
  by_cases hc : v.traceFile = ""
  · simp [startTracing, hc, skip]
  · cases h1 : env.createTraceFile v.traceFile <;> cases h2 : env.traceStart <;>
      simp_all [startTracing, traceSetupFails, call, Result.andThen, logFatal]

theorem startTracing_profiling (env : Env) (v : Vars) :
    ∀ e ∈ (startTracing env v).events, e.isProfilingOp = true := by
  by_cases hc : v.traceFile = ""
  · simp [startTracing, hc, skip]
  · cases h1 : env.createTraceFile v.traceFile <;> cases h2 : env.traceStart <;>
      simp [startTracing, hc, h1, h2, call, Result.andThen, logFatal, Event.isProfilingOp]

theorem startTracing_mem (env : Env) (v : Vars) (e : Event)
    (h : e ∈ (startTracing env v).events) :
    v.traceFile ≠ "" ∧ (e = .osCreate v.traceFile ∨ e = .traceStart v.traceFile) := by
  by_cases hc : v.traceFile = ""
  · simp [startTracing, hc, skip] at h
  · cases h1 : env.createTraceFile v.traceFile <;> cases h2 : env.traceStart <;>
      simp_all [startTracing, call, Result.andThen, logFatal]

theorem writeMemoryProfile_vars (env : Env) (v : Vars) : (writeMemoryProfile env v).vars = v := by
  by_cases hc : v.memprofile = ""
  · simp [writeMemoryProfile, hc, skip]
  · cases h1 : env.createMemprofile v.memprofile <;> cases h2 : env.writeHeapProfile <;>
      simp [writeMemoryProfile, hc, h1, h2, call, emit, Result.andThen, logFatal]

theorem writeMemoryProfile_completed (env : Env) (v : Vars) :
    (writeMemoryProfile env v).outcome = .completed ↔ ¬ heapProfileFails env v := by
  by_cases hc : v.memprofile = ""
  · simp [writeMemoryProfile, heapProfileFails, hc, skip]
  · cases h1 : env.createMemprofile v.memprofile <;> cases h2 : env.writeHeapProfile <;>
      simp [writeMemoryProfile, heapProfileFails, hc, h1, h2, call, emit, Result.andThen, logFatal]

theorem writeMemoryProfile_fatal (env : Env) (v : Vars) (h : heapProfileFails env v) :
    (writeMemoryProfile env v).outcome.isFatal = true := by
  by_cases hc : v.memprofile = ""
  · simp [heapProfileFails, hc] at h
  · cases h1 : env.createMemprofile v.memprofile <;> cases h2 : env.writeHeapProfile <;>
      simp_all [writeMemoryProfile, heapProfileFails, call, emit, Result.andThen, logFatal,
        Outcome.isFatal]

theorem writeMemoryProfile_events (env : Env) (v : Vars) (h : ¬ heapProfileFails env v) :
    (writeMemoryProfile env v).events =
      if v.memprofile ≠ "" then
        [.osCreate v.memprofile, .runtimeGC, .writeHeapProfile v.memprofile, .fileClose v.memprofile]
      else [] := by
  by_cases hc : v.memprofile = ""
  · simp [writeMemoryProfile, hc, skip]
  · cases h1 : env.createMemprofile v.memprofile <;> cases h2 : env.writeHeapProfile <;>
      simp_all [writeMemoryProfile, heapProfileFails, call, emit, Result.andThen, logFatal]

theorem writeMemoryProfile_profiling (env : Env) (v : Vars) :
    ∀ e ∈ (writeMemoryProfile env v).events, e.isProfilingOp = true := by
  by_cases hc : v.memprofile = ""
  · simp [writeMemoryProfile, hc, skip]
  · cases h1 : env.createMemprofile v.memprofile <;> cases h2 : env.writeHeapProfile <;>
      simp [writeMemoryProfile, hc, h1, h2, call, emit, Result.andThen, logFatal,
        Event.isProfilingOp]

theorem writeMemoryProfile_mem (env : Env) (v : Vars) (e : Event)
    (h : e ∈ (writeMemoryProfile env v).events) :
    v.memprofile ≠ "" ∧ (e = .osCreate v.memprofile ∨ e = .runtimeGC
      ∨ e = .writeHeapProfile v.memprofile ∨ e = .fileClose v.memprofile) := by
  by_cases hc : v.memprofile = ""
  · simp [writeMemoryProfile, hc, skip] at h
  · cases h1 : env.createMemprofile v.memprofile <;> cases h2 : env.writeHeapProfile <;>
      (simp_all [writeMemoryProfile, call, emit, Result.andThen, logFatal] <;> try tauto)


/-! ## The hooks -/

theorem preRun_events_eq (env : Env) (v : Vars) :
    (PersistentPreRun env v).events =
      (startCpuProfiling env v).events ++
        if (startCpuProfiling env v).outcome = .completed then
          (startTracing env v).events ++
            if (startTracing env v).outcome = .completed then (startMeasuringTime env v).events
            else []
        else [] := by
  simp only [PersistentPreRun, andThen_events, startCpuProfiling_vars, startTracing_vars]

theorem preRun_outcome_eq (env : Env) (v : Vars) :
    (PersistentPreRun env v).outcome =
      if (startCpuProfiling env v).outcome = .completed then
        if (startTracing env v).outcome = .completed then .completed
        else (startTracing env v).outcome
      else (startCpuProfiling env v).outcome := by
  simp only [PersistentPreRun, andThen_outcome, startCpuProfiling_vars, startTracing_vars]
  have : (startMeasuringTime env v).outcome = .completed := by
    unfold startMeasuringTime skip
    split <;> rfl
  rw [this]

theorem preRun_vars_eq (env : Env) (v : Vars) :
    (PersistentPreRun env v).vars =
      if (PersistentPreRun env v).outcome = .completed ∧ v.measureTime = true then
        { v with timeCheckpoint := env.clockAtPreRun }
      else v := by
  rw [preRun_outcome_eq]
  simp only [PersistentPreRun, andThen_vars, startCpuProfiling_vars, startTracing_vars,
    startMeasuringTime, skip]
  by_cases h1 : (startCpuProfiling env v).outcome = .completed <;>
    by_cases h2 : (startTracing env v).outcome = .completed <;>
    by_cases h3 : v.measureTime = true <;> simp [h1, h2, h3]

theorem preRun_completed (env : Env) (v : Vars) :
    (PersistentPreRun env v).outcome = .completed ↔
      ¬ cpuProfileSetupFails env v ∧ ¬ traceSetupFails env v := by
  rw [preRun_outcome_eq, ← startCpuProfiling_completed, ← startTracing_completed]
  by_cases h1 : (startCpuProfiling env v).outcome = .completed <;>
    by_cases h2 : (startTracing env v).outcome = .completed <;> simp [h1, h2]

theorem preRun_fatal (env : Env) (v : Vars)
    (h : cpuProfileSetupFails env v ∨ traceSetupFails env v) :
    (PersistentPreRun env v).outcome.isFatal = true := by
  rw [preRun_outcome_eq]
  by_cases h1 : cpuProfileSetupFails env v
  · have := (startCpuProfiling_completed env v).not.mpr (not_not.mpr h1)
    simp [this, startCpuProfiling_fatal env v h1]
  · have h2 : traceSetupFails env v := h.resolve_left h1
    have h1c := (startCpuProfiling_completed env v).mpr h1
    have := (startTracing_completed env v).not.mpr (not_not.mpr h2)
    simp [h1c, this, startTracing_fatal env v h2]

theorem preRun_not_work (env : Env) (v : Vars) :
    ∀ e ∈ (PersistentPreRun env v).events, e.isSubcommandWork = false := by
  intro e he
  rw [preRun_events_eq] at he
  have hp : ∀ e : Event, e.isProfilingOp = true → e.isSubcommandWork = false := by
    intro e; cases e <;> simp [Event.isProfilingOp, Event.isSubcommandWork]
  simp only [List.mem_append] at he
  rcases he with he | he
  · exact hp e (startCpuProfiling_profiling env v e he)
  · split at he
    · simp only [List.mem_append] at he
      rcases he with he | he
      · exact hp e (startTracing_profiling env v e he)
      · split at he
        · unfold startMeasuringTime skip at he
          split at he <;> simp_all [Event.isSubcommandWork]
        · simp at he
    · simp at he

theorem postRun_events_eq (env : Env) (v : Vars) :
    (PersistentPostRun env v).events =
      (printMeasuredTime env v).events ++ ((stopCpuProfiling v).events ++
        ((writeMemoryProfile env v).events ++
          if (writeMemoryProfile env v).outcome = .completed then (stopTracing v).events
          else [])) := by
  have h1 : (printMeasuredTime env v).outcome = .completed ∧ (printMeasuredTime env v).vars = v := by
    unfold printMeasuredTime skip emit
    split <;> simp
  have h2 : (stopCpuProfiling v).outcome = .completed ∧ (stopCpuProfiling v).vars = v := by
    unfold stopCpuProfiling skip emit
    split <;> simp
  simp only [PersistentPostRun, andThen_events, h1.1, h1.2, h2.1, h2.2, if_true,
    writeMemoryProfile_vars]

theorem postRun_outcome_eq (env : Env) (v : Vars) :
    (PersistentPostRun env v).outcome = (writeMemoryProfile env v).outcome := by
  have h1 : (printMeasuredTime env v).outcome = .completed ∧ (printMeasuredTime env v).vars = v := by
    unfold printMeasuredTime skip emit
    split <;> simp
  have h2 : (stopCpuProfiling v).outcome = .completed ∧ (stopCpuProfiling v).vars = v := by
    unfold stopCpuProfiling skip emit
    split <;> simp
  have h3 : (stopTracing v).outcome = .completed := by
    unfold stopTracing skip emit
    split <;> simp
  simp only [PersistentPostRun, andThen_outcome, h1.1, h1.2, h2.1, h2.2, if_true,
    writeMemoryProfile_vars, h3]
  split <;> simp_all

theorem postRun_not_work (env : Env) (v : Vars) :
    ∀ e ∈ (PersistentPostRun env v).events, e.isSubcommandWork = false := by
  intro e he
  rw [postRun_events_eq] at he
  have hp : ∀ e : Event, e.isProfilingOp = true → e.isSubcommandWork = false := by
    intro e; cases e <;> simp [Event.isProfilingOp, Event.isSubcommandWork]
  simp only [List.mem_append] at he
  rcases he with he | he | he | he
  · unfold printMeasuredTime skip emit at he
    split at he <;> simp_all [Event.isSubcommandWork]
  · unfold stopCpuProfiling skip emit at he
    split at he <;> simp_all [Event.isSubcommandWork]
  · exact hp e (writeMemoryProfile_profiling env v e he)
  · unfold stopTracing skip emit at he
    split at he
    · split at he <;> simp_all [Event.isSubcommandWork]
    · simp at he

/-! ## The `Run` bodies -/

theorem run_vars (cmd : Command) (env : Env) (d : String) (v : Vars) :
    (cmd.Run env d v).vars = v := by
  cases cmd
  · cases h : env.schematreeCreate d (uint64 v.firstNsubjects) true 0 <;>
      cases hw : v.writeOutPropertyFreqs <;>
      simp [Command.Run, cmdBuildTreeTypedRun, Result.andThen, call, emit, skip, logPanicln, h, hw]
  · cases h : env.schematreeCreate d (uint64 v.firstNsubjects) false 0 <;>
      cases hw : v.writeOutPropertyFreqs <;>
      simp [Command.Run, cmdBuildTreeRun, Result.andThen, call, emit, skip, logPanicln, h, hw]
  · cases h : env.splitByPrefix d <;> simp [Command.Run, cmdSplitDatasetByPrefixRun, h]
  · simp [Command.Run, cmdSplitDatasetBySamplingRun, emit]
  · cases h : env.filterForSchematree d <;>
      simp [Command.Run, cmdFilterDatasetForSchematreeRun, h]

theorem run_events_work (cmd : Command) (env : Env) (d : String) (v : Vars) :
    ∀ e ∈ (cmd.Run env d v).events, e.isSubcommandWork = true := by
  cases cmd
  · cases h : env.schematreeCreate d (uint64 v.firstNsubjects) true 0 <;>
      cases hw : v.writeOutPropertyFreqs <;>
      simp [Command.Run, cmdBuildTreeTypedRun, Result.andThen, call, emit, skip, logPanicln, h, hw,
        Event.isSubcommandWork]
  · cases h : env.schematreeCreate d (uint64 v.firstNsubjects) false 0 <;>
      cases hw : v.writeOutPropertyFreqs <;>
      simp [Command.Run, cmdBuildTreeRun, Result.andThen, call, emit, skip, logPanicln, h, hw,
        Event.isSubcommandWork]
  · cases h : env.splitByPrefix d <;>
      simp [Command.Run, cmdSplitDatasetByPrefixRun, h, Event.isSubcommandWork]
  · simp [Command.Run, cmdSplitDatasetBySamplingRun, emit, Event.isSubcommandWork]
  · cases h : env.filterForSchematree d <;>
      simp [Command.Run, cmdFilterDatasetForSchematreeRun, h, Event.isSubcommandWork]

theorem run_events_ne_nil (cmd : Command) (env : Env) (d : String) (v : Vars) :
    (cmd.Run env d v).events ≠ [] := by
  cases cmd
  · cases h : env.schematreeCreate d (uint64 v.firstNsubjects) true 0 <;>
      cases hw : v.writeOutPropertyFreqs <;>
      simp [Command.Run, cmdBuildTreeTypedRun, Result.andThen, call, emit, skip, logPanicln, h, hw]
  · cases h : env.schematreeCreate d (uint64 v.firstNsubjects) false 0 <;>
      cases hw : v.writeOutPropertyFreqs <;>
      simp [Command.Run, cmdBuildTreeRun, Result.andThen, call, emit, skip, logPanicln, h, hw]
  · cases h : env.splitByPrefix d <;> simp [Command.Run, cmdSplitDatasetByPrefixRun, h]
  · simp [Command.Run, cmdSplitDatasetBySamplingRun, emit]
  · cases h : env.filterForSchematree d <;>
      simp [Command.Run, cmdFilterDatasetForSchematreeRun, h]

theorem createCalls_buildTree (env : Env) (d : String) (v : Vars) :
    createCalls (cmdBuildTreeRun env d v).events = [(d, uint64 v.firstNsubjects, false, 0)] := by
  cases h : env.schematreeCreate d (uint64 v.firstNsubjects) false 0 <;>
    cases hw : v.writeOutPropertyFreqs <;>
    simp [cmdBuildTreeRun, Result.andThen, call, emit, skip, logPanicln, h, hw, createCalls]

theorem createCalls_buildTreeTyped (env : Env) (d : String) (v : Vars) :
    createCalls (cmdBuildTreeTypedRun env d v).events = [(d, uint64 v.firstNsubjects, true, 0)] := by
  cases h : env.schematreeCreate d (uint64 v.firstNsubjects) true 0 <;>
    cases hw : v.writeOutPropertyFreqs <;>
    simp [cmdBuildTreeTypedRun, Result.andThen, call, emit, skip, logPanicln, h, hw, createCalls]

theorem createCalls_not_work (es : List Event) (h : ∀ e ∈ es, e.isSubcommandWork = false) :
    createCalls es = [] := by
  induction es with
  | nil => rfl
  | cons e es ih =>
    have he := h e (List.mem_cons_self _ _)
    have ih2 := ih fun x hx => h x (List.mem_cons_of_mem _ hx)
    clear h ih
    unfold createCalls at ih2 ⊢
    cases e <;> simp [Event.isSubcommandWork] at he <;> simp [List.filterMap_cons, ih2]

theorem createCalls_append (a b : List Event) :
    createCalls (a ++ b) = createCalls a ++ createCalls b := by
  simp [createCalls]

/-! ## The whole run -/

theorem Execute_of_parse (env : Env) (inv : Invocation) (v : Vars)
    (h : parseFlags (inv.cmd.Flags ++ cmdRootPersistentFlags) inv.given definedVars = .ok v) :
    Execute env inv =
      (PersistentPreRun env v).andThen fun v =>
        (inv.cmd.Run env inv.dataset v).andThen (PersistentPostRun env) := by
  simp [Execute, h]

theorem Execute_events (env : Env) (inv : Invocation) (v : Vars)
    (h : parseFlags (inv.cmd.Flags ++ cmdRootPersistentFlags) inv.given definedVars = .ok v) :
    (Execute env inv).events =
      (PersistentPreRun env v).events ++
        if (PersistentPreRun env v).outcome = .completed then
          (inv.cmd.Run env inv.dataset (PersistentPreRun env v).vars).events ++
            if (inv.cmd.Run env inv.dataset (PersistentPreRun env v).vars).outcome = .completed
            then (PersistentPostRun env (PersistentPreRun env v).vars).events
            else []
        else [] := by
  rw [Execute_of_parse env inv v h]
  simp only [andThen_events, run_vars]

theorem Execute_outcome (env : Env) (inv : Invocation) (v : Vars)
    (h : parseFlags (inv.cmd.Flags ++ cmdRootPersistentFlags) inv.given definedVars = .ok v) :
    (Execute env inv).outcome =
      if (PersistentPreRun env v).outcome = .completed then
        if (inv.cmd.Run env inv.dataset (PersistentPreRun env v).vars).outcome = .completed
        then (PersistentPostRun env (PersistentPreRun env v).vars).outcome
        else (inv.cmd.Run env inv.dataset (PersistentPreRun env v).vars).outcome
      else (PersistentPreRun env v).outcome := by
  rw [Execute_of_parse env inv v h]
  simp only [andThen_outcome, run_vars]


theorem preRun_vars_flags (env : Env) (v : Vars) :
    ∃ t, (PersistentPreRun env v).vars = { v with timeCheckpoint := t } := by
  rw [preRun_vars_eq]
  split
  · exact ⟨_, rfl⟩
  · exact ⟨v.timeCheckpoint, rfl⟩

theorem createCalls_Execute (env : Env) (inv : Invocation) (v : Vars)
    (h : parseFlags (inv.cmd.Flags ++ cmdRootPersistentFlags) inv.given definedVars = .ok v)
    (hp : (PersistentPreRun env v).outcome = .completed) :
    createCalls (Execute env inv).events =
      createCalls (inv.cmd.Run env inv.dataset (PersistentPreRun env v).vars).events := by
  rw [Execute_events env inv v h]
  simp only [hp, if_true, createCalls_append, createCalls_not_work _ (preRun_not_work env v),
    List.nil_append]
  split
  · rw [createCalls_not_work _ (postRun_not_work env _), List.append_nil]
  · simp [createCalls]

theorem parse_first (typed : Bool) (n : Int) (h1 : -(2 ^ 63 : Int) ≤ n) (h2 : n < 2 ^ 63) :
    parseFlags ((if typed then Command.cmdBuildTreeTyped else Command.cmdBuildTree).Flags
        ++ cmdRootPersistentFlags) [(.long "first", .int64 n)] definedVars
      = .ok { definedVars with firstNsubjects := n } := by
  cases typed <;>
  simp [parseFlags, Command.Flags, cmdBuildTreeTypedFlags, cmdBuildTreeFlags, cmdRootPersistentFlags,
    FlagDecl.answers, Var.accepts, Vars.assign] <;> constructor <;> omega

theorem parse_none (cmd : Command) :
    parseFlags (cmd.Flags ++ cmdRootPersistentFlags) [] definedVars = .ok definedVars := by
  simp [parseFlags]

theorem preRun_completed_of_defaults (env : Env) (v : Vars) (h1 : v.cpuprofile = "")
    (h2 : v.traceFile = "") : (PersistentPreRun env v).outcome = .completed := by
  rw [preRun_completed]
  simp [cpuProfileSetupFails, traceSetupFails, h1, h2]

theorem exportsRequested_not_work (es : List Event)
    (h : ∀ e ∈ es, e.isSubcommandWork = false) : exportsRequested es = [] := by
  induction es with
  | nil => rfl
  | cons e es ih =>
    have he := h e (List.mem_cons_self _ _)
    have ih2 := ih fun x hx => h x (List.mem_cons_of_mem _ hx)
    clear h ih
    unfold exportsRequested at ih2 ⊢
    cases e <;> simp [Event.isSubcommandWork] at he <;> simp [List.filterMap_cons, ih2]

theorem exportsRequested_append (a b : List Event) :
    exportsRequested (a ++ b) = exportsRequested a ++ exportsRequested b := by
  simp [exportsRequested]

theorem exportsRequested_Execute (env : Env) (inv : Invocation) (v : Vars)
    (h : parseFlags (inv.cmd.Flags ++ cmdRootPersistentFlags) inv.given definedVars = .ok v)
    (hp : (PersistentPreRun env v).outcome = .completed) :
    exportsRequested (Execute env inv).events =
      exportsRequested (inv.cmd.Run env inv.dataset (PersistentPreRun env v).vars).events := by
  rw [Execute_events env inv v h]
  simp only [hp, if_true, exportsRequested_append,
    exportsRequested_not_work _ (preRun_not_work env v), List.nil_append]
  split
  · rw [exportsRequested_not_work _ (postRun_not_work env _), List.append_nil]
  · simp [exportsRequested]

theorem parse_writeFrequencies (typed : Bool) (wf : Bool) :
    parseFlags ((if typed then Command.cmdBuildTreeTyped else Command.cmdBuildTree).Flags
        ++ cmdRootPersistentFlags) [(.long "write-frequencies", .bool wf)] definedVars
      = .ok { definedVars with writeOutPropertyFreqs := wf } := by
  cases typed <;>
  simp [parseFlags, Command.Flags, cmdBuildTreeTypedFlags, cmdBuildTreeFlags,
    cmdRootPersistentFlags, FlagDecl.answers, Var.accepts, Vars.assign]

/-- The one `schematree.Create` call of a build started with at most `--first n`. -/
theorem createCalls_Execute_build (env : Env) (typed : Bool) (d : String)
    (given : List (FlagKey × FlagValue)) (v : Vars)
    (h : parseFlags ((if typed then Command.cmdBuildTreeTyped else Command.cmdBuildTree).Flags
        ++ cmdRootPersistentFlags) given definedVars = .ok v)
    (h1 : v.cpuprofile = "") (h2 : v.traceFile = "") :
    createCalls (Execute env
      ⟨if typed then .cmdBuildTreeTyped else .cmdBuildTree, given, d⟩).events
      = [(d, uint64 v.firstNsubjects, typed, 0)] := by
  rw [createCalls_Execute env _ v h (preRun_completed_of_defaults env v h1 h2)]
  obtain ⟨t, ht⟩ := preRun_vars_flags env v
  rw [ht]
  cases typed
  · exact createCalls_buildTree env d _
  · exact createCalls_buildTreeTyped env d _


/-! ## The build commands -/

/-- C1, at `build-tree-typed --num-pointers-typed 5 data.nt`: the flag stores 5 in
`numPointersInNode`, yet the one call made is `schematree.Create("data.nt", 0, true, 0)`,
the same call as without the flag; the default 3 of the flag is not handed over
either. -/
theorem num_pointers_typed_not_handed_over (env : Env) :
    parseFlags (Command.cmdBuildTreeTyped.Flags ++ cmdRootPersistentFlags)
        [(.long "num-pointers-typed", .int 5)] definedVars
      = .ok { definedVars with numPointersInNode := 5 } ∧
    createCalls (Execute env
        ⟨.cmdBuildTreeTyped, [(.long "num-pointers-typed", .int 5)], "data.nt"⟩).events
      = [("data.nt", 0, true, 0)] ∧
    definedVars.numPointersInNode = 3 ∧
    createCalls (Execute env ⟨.cmdBuildTreeTyped, [], "data.nt"⟩).events
      = [("data.nt", 0, true, 0)] := by
  have hp : parseFlags (Command.cmdBuildTreeTyped.Flags ++ cmdRootPersistentFlags)
      [(.long "num-pointers-typed", .int 5)] definedVars
      = .ok { definedVars with numPointersInNode := 5 } := by
    simp [parseFlags, Command.Flags, cmdBuildTreeTypedFlags, cmdRootPersistentFlags,
      FlagDecl.answers, Var.accepts, Vars.assign]
  refine ⟨hp, ?_, by decide, ?_⟩
  · exact createCalls_Execute_build env true "data.nt" _ _ hp rfl rfl
  · exact createCalls_Execute_build env true "data.nt" [] _ (parse_none _) rfl rfl

/-- C2: the frequency exports requested by the `Run` body of `build-tree` and of
`build-tree-typed` are those of `frequencyExports`, a function of the command, of
`--write-frequencies` and of whether `schematree.Create` returned an error; so are
those of a whole run given `--write-frequencies`, and a run without the flag requests
none. -/
theorem frequency_exports_requested (env : Env) (d : String) (v : Vars) (wf : Bool) :
    exportsRequested (cmdBuildTreeRun env d v).events
      = frequencyExports false v.writeOutPropertyFreqs
          (env.schematreeCreate d (uint64 v.firstNsubjects) false 0).isSome d ∧
    exportsRequested (cmdBuildTreeTypedRun env d v).events
      = frequencyExports true v.writeOutPropertyFreqs
          (env.schematreeCreate d (uint64 v.firstNsubjects) true 0).isSome d ∧
    exportsRequested (Execute env
        ⟨.cmdBuildTree, [(.long "write-frequencies", .bool wf)], d⟩).events
      = frequencyExports false wf (env.schematreeCreate d 0 false 0).isSome d ∧
    exportsRequested (Execute env
        ⟨.cmdBuildTreeTyped, [(.long "write-frequencies", .bool wf)], d⟩).events
      = frequencyExports true wf (env.schematreeCreate d 0 true 0).isSome d ∧
    exportsRequested (Execute env ⟨.cmdBuildTree, [], d⟩).events = [] ∧
    exportsRequested (Execute env ⟨.cmdBuildTreeTyped, [], d⟩).events = [] := by
  have hU : ∀ w : Vars,
      exportsRequested (cmdBuildTreeRun env d w).events
        = frequencyExports false w.writeOutPropertyFreqs
            (env.schematreeCreate d (uint64 w.firstNsubjects) false 0).isSome d := by
    intro w
    cases h : env.schematreeCreate d (uint64 w.firstNsubjects) false 0 <;>
      cases hw : w.writeOutPropertyFreqs <;>
      simp [cmdBuildTreeRun, Result.andThen, call, emit, skip, logPanicln, h, hw,
        exportsRequested, frequencyExports]
  have hT : ∀ w : Vars,
      exportsRequested (cmdBuildTreeTypedRun env d w).events
        = frequencyExports true w.writeOutPropertyFreqs
            (env.schematreeCreate d (uint64 w.firstNsubjects) true 0).isSome d := by
    intro w
    cases h : env.schematreeCreate d (uint64 w.firstNsubjects) true 0 <;>
      cases hw : w.writeOutPropertyFreqs <;>
      simp [cmdBuildTreeTypedRun, Result.andThen, call, emit, skip, logPanicln, h, hw,
        exportsRequested, frequencyExports]
  have hz : uint64 0 = 0 := by decide
  refine ⟨hU v, hT v, ?_, ?_, ?_, ?_⟩
  · rw [exportsRequested_Execute env _ _ (parse_writeFrequencies false wf)
      (preRun_completed_of_defaults env _ rfl rfl)]
    obtain ⟨t, ht⟩ := preRun_vars_flags env { definedVars with writeOutPropertyFreqs := wf }
    rw [ht]
    exact (hU _).trans (by simp [definedVars, defineFlags, cmdRootPersistentFlags,
      cmdBuildTreeTypedFlags, cmdBuildTreeFlags, cmdSplitDatasetBySamplingFlags, Vars.assign,
      Vars.zero, hz])
  · rw [exportsRequested_Execute env _ _ (parse_writeFrequencies true wf)
      (preRun_completed_of_defaults env _ rfl rfl)]
    obtain ⟨t, ht⟩ := preRun_vars_flags env { definedVars with writeOutPropertyFreqs := wf }
    rw [ht]
    exact (hT _).trans (by simp [definedVars, defineFlags, cmdRootPersistentFlags,
      cmdBuildTreeTypedFlags, cmdBuildTreeFlags, cmdSplitDatasetBySamplingFlags, Vars.assign,
      Vars.zero, hz])
  · rw [exportsRequested_Execute env ⟨.cmdBuildTree, [], d⟩ _ (parse_none _)
      (preRun_completed_of_defaults env _ rfl rfl)]
    obtain ⟨t, ht⟩ := preRun_vars_flags env definedVars
    rw [ht]
    exact (hU _).trans (by simp [definedVars, defineFlags, cmdRootPersistentFlags,
      cmdBuildTreeTypedFlags, cmdBuildTreeFlags, cmdSplitDatasetBySamplingFlags, Vars.assign,
      Vars.zero, frequencyExports])
  · rw [exportsRequested_Execute env ⟨.cmdBuildTreeTyped, [], d⟩ _ (parse_none _)
      (preRun_completed_of_defaults env _ rfl rfl)]
    obtain ⟨t, ht⟩ := preRun_vars_flags env definedVars
    rw [ht]
    exact (hT _).trans (by simp [definedVars, defineFlags, cmdRootPersistentFlags,
      cmdBuildTreeTypedFlags, cmdBuildTreeFlags, cmdSplitDatasetBySamplingFlags, Vars.assign,
      Vars.zero, frequencyExports])

/-- C3, at `split-dataset 1-in-n data.nt` when `preparation.SplitBySampling` reports
a failure: the run completes normally, the failure is dropped. -/
theorem sampling_failure_discarded :
    envSamplingFails.splitBySampling "data.nt" 1000
      = some "open data.nt: no such file or directory" ∧
    Execute envSamplingFails ⟨.cmdSplitDatasetBySampling, [], "data.nt"⟩
      = ⟨[.splitBySampling "data.nt" 1000], .completed, definedVars⟩ := by
  constructor <;> decide

/-- The failures the `Run` bodies inspect end the run with that failure as the
panic message: `schematree.Create`, `preparation.SplitByPrefix` and
`preparation.FilterForSchematree`. -/
theorem inspected_failures_end_the_run (env : Env) (d : String) (v : Vars) (err : String) :
    (env.schematreeCreate d (uint64 v.firstNsubjects) true 0 = some err →
      cmdBuildTreeTypedRun env d v
        = ⟨[.schematreeCreate d (uint64 v.firstNsubjects) true 0], .panicked (err ++ "\n"), v⟩) ∧
    (env.schematreeCreate d (uint64 v.firstNsubjects) false 0 = some err →
      cmdBuildTreeRun env d v
        = ⟨[.schematreeCreate d (uint64 v.firstNsubjects) false 0], .panicked (err ++ "\n"), v⟩) ∧
    (env.splitByPrefix d = .error err →
      cmdSplitDatasetByPrefixRun env d v = ⟨[.splitByPrefix d], .panicked (err ++ "\n"), v⟩) ∧
    (env.filterForSchematree d = .error err →
      cmdFilterDatasetForSchematreeRun env d v
        = ⟨[.filterForSchematree d], .panicked (err ++ "\n"), v⟩) := by
  refine ⟨fun h => ?_, fun h => ?_, fun h => ?_, fun h => ?_⟩
  · simp [cmdBuildTreeTypedRun, Result.andThen, call, logPanicln, h]
  · simp [cmdBuildTreeRun, Result.andThen, call, logPanicln, h]
  · simp [cmdSplitDatasetByPrefixRun, logPanicln, h]
  · simp [cmdFilterDatasetForSchematreeRun, logPanicln, h]

/-- The results of `preparation.SplitBySampling`, `WritePropFreqs` and
`WriteTypeFreqs` are never read: the `Run` bodies that call them behave the same in
every environment that agrees on `schematree.Create`. -/
theorem uninspected_results (env : Env) (d : String) (v : Vars) :
    cmdSplitDatasetBySamplingRun env d v
      = ⟨[.splitBySampling d (int64 v.everyNthSubject)], .completed, v⟩ ∧
    (env.schematreeCreate d (uint64 v.firstNsubjects) true 0 = none →
      (cmdBuildTreeTypedRun env d v).outcome = .completed) ∧
    (env.schematreeCreate d (uint64 v.firstNsubjects) false 0 = none →
      (cmdBuildTreeRun env d v).outcome = .completed) := by
  refine ⟨rfl, fun h => ?_, fun h => ?_⟩
  · cases hw : v.writeOutPropertyFreqs <;>
      simp [cmdBuildTreeTypedRun, Result.andThen, call, emit, skip, h, hw]
  · cases hw : v.writeOutPropertyFreqs <;>
      simp [cmdBuildTreeRun, Result.andThen, call, emit, skip, h, hw]

/-- C5: for `0 ≤ N < 2^63`, `--first N` makes both build commands hand the cap `N`
to `schematree.Create` (whatever the other variables hold, and in a run given only
this flag), and without `--first` the cap handed over is 0. -/
theorem first_cap_handed_over (env : Env) (d : String) (N : Nat) (hN : N < 2 ^ 63) :
    (∀ v : Vars, v.firstNsubjects = N →
      createCalls (cmdBuildTreeRun env d v).events = [(d, N, false, 0)] ∧
      createCalls (cmdBuildTreeTypedRun env d v).events = [(d, N, true, 0)]) ∧
    createCalls (Execute env ⟨.cmdBuildTree, [(.long "first", .int64 N)], d⟩).events
      = [(d, N, false, 0)] ∧
    createCalls (Execute env ⟨.cmdBuildTreeTyped, [(.long "first", .int64 N)], d⟩).events
      = [(d, N, true, 0)] ∧
    createCalls (Execute env ⟨.cmdBuildTree, [], d⟩).events = [(d, 0, false, 0)] ∧
    createCalls (Execute env ⟨.cmdBuildTreeTyped, [], d⟩).events = [(d, 0, true, 0)] := by
  have hu : uint64 (N : Int) = N := by
    unfold uint64
    omega
  have h1 : -(2 ^ 63 : Int) ≤ (N : Int) := by omega
  have h2 : (N : Int) < 2 ^ 63 := by omega
  refine ⟨fun v hv => ?_, ?_, ?_, ?_, ?_⟩
  · rw [createCalls_buildTree, createCalls_buildTreeTyped, hv, hu]
    exact ⟨rfl, rfl⟩
  · have := createCalls_Execute_build env false d _ _ (parse_first false N h1 h2) rfl rfl
    simpa [hu] using this
  · have := createCalls_Execute_build env true d _ _ (parse_first true N h1 h2) rfl rfl
    simpa [hu] using this
  · exact createCalls_Execute_build env false d [] _ (parse_none _) rfl rfl
  · exact createCalls_Execute_build env true d [] _ (parse_none _) rfl rfl

/-- Witness of C5: `--first 2` hands over the cap 2. -/
theorem first_cap_handed_over_witness :
    (2 < 2 ^ 63) ∧
    createCalls (Execute envOk ⟨.cmdBuildTree, [(.long "first", .int64 2)], "data.nt"⟩).events
      = [("data.nt", 2, false, 0)] ∧
    createCalls (Execute envOk ⟨.cmdBuildTreeTyped, [(.long "first", .int64 2)], "data.nt"⟩).events
      = [("data.nt", 2, true, 0)] :=
  ⟨by decide, (first_cap_handed_over envOk "data.nt" 2 (by decide)).2.1,
    (first_cap_handed_over envOk "data.nt" 2 (by decide)).2.2.1⟩

/-- C6: for every dataset path `d` and every `--first` value `n`, `build-tree` calls
`schematree.Create(d, uint64(n), false, 0)` and `build-tree-typed` calls
`schematree.Create(d, uint64(n), true, 0)`: one call each, the first call of the
`Run` body, equal but for the typed switch. -/
theorem build_modes_differ_in_typed_switch (env : Env) (d : String) (n : Int)
    (h1 : -(2 ^ 63 : Int) ≤ n) (h2 : n < 2 ^ 63) :
    (∀ v : Vars, v.firstNsubjects = n →
      createCalls (cmdBuildTreeRun env d v).events = [(d, uint64 n, false, 0)] ∧
      createCalls (cmdBuildTreeTypedRun env d v).events = [(d, uint64 n, true, 0)] ∧
      (cmdBuildTreeRun env d v).events.head? = some (.schematreeCreate d (uint64 n) false 0) ∧
      (cmdBuildTreeTypedRun env d v).events.head?
        = some (.schematreeCreate d (uint64 n) true 0)) ∧
    createCalls (Execute env ⟨.cmdBuildTree, [(.long "first", .int64 n)], d⟩).events
      = [(d, uint64 n, false, 0)] ∧
    createCalls (Execute env ⟨.cmdBuildTreeTyped, [(.long "first", .int64 n)], d⟩).events
      = [(d, uint64 n, true, 0)] := by
  refine ⟨fun v hv => ⟨?_, ?_, ?_, ?_⟩, ?_, ?_⟩
  · rw [createCalls_buildTree, hv]
  · rw [createCalls_buildTreeTyped, hv]
  · cases h : env.schematreeCreate d (uint64 v.firstNsubjects) false 0 <;>
      cases hw : v.writeOutPropertyFreqs <;>
      simp [cmdBuildTreeRun, Result.andThen, call, emit, skip, logPanicln, h, hw, hv.symm]
  · cases h : env.schematreeCreate d (uint64 v.firstNsubjects) true 0 <;>
      cases hw : v.writeOutPropertyFreqs <;>
      simp [cmdBuildTreeTypedRun, Result.andThen, call, emit, skip, logPanicln, h, hw, hv.symm]
  · exact createCalls_Execute_build env false d _ _ (parse_first false n h1 h2) rfl rfl
  · exact createCalls_Execute_build env true d _ _ (parse_first true n h1 h2) rfl rfl

/-- Witness of C6: `--first 7` on both build commands. -/
theorem build_modes_differ_in_typed_switch_witness :
    (-(2 ^ 63 : Int) ≤ 7 ∧ (7 : Int) < 2 ^ 63) ∧
    createCalls (Execute envOk ⟨.cmdBuildTree, [(.long "first", .int64 7)], "data.nt"⟩).events
      = [("data.nt", 7, false, 0)] ∧
    createCalls (Execute envOk ⟨.cmdBuildTreeTyped, [(.long "first", .int64 7)], "data.nt"⟩).events
      = [("data.nt", 7, true, 0)] :=
  ⟨by decide,
    (build_modes_differ_in_typed_switch envOk "data.nt" 7 (by decide) (by decide)).2.1,
    (build_modes_differ_in_typed_switch envOk "data.nt" 7 (by decide) (by decide)).2.2⟩

/-- C7 fails for `build-tree`: none of the flags it accepts is bound to the number of
pointers stored in a node. -/
theorem build_tree_has_no_threshold_flag :
    ¬ (exposesThreshold .cmdBuildTree ∧ exposesThreshold .cmdBuildTreeTyped) := by
  simp [exposesThreshold, Command.Flags, cmdBuildTreeFlags, cmdRootPersistentFlags]

/-- C7 as amended: `build-tree-typed` is the one subcommand with a flag bound to the
number of pointers stored in a node, `--num-pointers-typed` with default 3;
`build-tree` accepts `--first` and `--write-frequencies` only, and rejects
`--num-pointers-typed` before any hook or `Run` body is executed. -/
theorem threshold_flag_only_on_typed_build (env : Env) (K : Int) (d : String) :
    (∀ cmd, exposesThreshold cmd ↔ cmd = .cmdBuildTreeTyped) ∧
    cmdBuildTreeTypedFlags.filter (fun f => f.target = Var.numPointersInNode)
      = [⟨.numPointersInNode, "num-pointers-typed", "", .int 3,
          "The number of pointers sotred directly in the node"⟩] ∧
    cmdBuildTreeFlags.map (fun f => f.name) = ["first", "write-frequencies"] ∧
    Execute env ⟨.cmdBuildTree, [(.long "num-pointers-typed", .int K)], d⟩
      = ⟨[], .usage "unknown flag", definedVars⟩ := by
  refine ⟨fun cmd => ?_, by decide, by decide, ?_⟩
  · cases cmd <;>
      simp [exposesThreshold, Command.Flags, cmdBuildTreeFlags, cmdBuildTreeTypedFlags,
        cmdSplitDatasetBySamplingFlags, cmdRootPersistentFlags]
  · simp [Execute, parseFlags, Command.Flags, cmdBuildTreeFlags, cmdRootPersistentFlags,
      FlagDecl.answers]

/-- C10: for `-2^63 ≤ n < 0`, `--first n` is accepted by both build commands, which
call `schematree.Create` with the cap `2^64 + n`; that cap is neither `n` nor 0. -/
theorem negative_first_wraps_around (env : Env) (d : String) (n : Int)
    (h1 : -(2 ^ 63 : Int) ≤ n) (h2 : n < 0) :
    parseFlags (Command.cmdBuildTree.Flags ++ cmdRootPersistentFlags)
        [(.long "first", .int64 n)] definedVars = .ok { definedVars with firstNsubjects := n } ∧
    parseFlags (Command.cmdBuildTreeTyped.Flags ++ cmdRootPersistentFlags)
        [(.long "first", .int64 n)] definedVars = .ok { definedVars with firstNsubjects := n } ∧
    createCalls (Execute env ⟨.cmdBuildTree, [(.long "first", .int64 n)], d⟩).events
      = [(d, (2 ^ 64 + n).toNat, false, 0)] ∧
    createCalls (Execute env ⟨.cmdBuildTreeTyped, [(.long "first", .int64 n)], d⟩).events
      = [(d, (2 ^ 64 + n).toNat, true, 0)] ∧
    (((2 ^ 64 + n).toNat : Int) = 2 ^ 64 + n) ∧
    (((2 ^ 64 + n).toNat : Int) ≠ n) ∧ (2 ^ 64 + n).toNat ≠ 0 := by
  have hu : uint64 n = (2 ^ 64 + n).toNat := by
    unfold uint64
    omega
  have h3 : n < 2 ^ 63 := by omega
  refine ⟨parse_first false n h1 h3, parse_first true n h1 h3, ?_, ?_, by omega, by omega,
    by omega⟩
  · have := createCalls_Execute_build env false d _ _ (parse_first false n h1 h3) rfl rfl
    simpa [hu] using this
  · have := createCalls_Execute_build env true d _ _ (parse_first true n h1 h3) rfl rfl
    simpa [hu] using this

/-- Witness of C10: `--first -1` hands over 18446744073709551615. -/
theorem negative_first_wraps_around_witness :
    (-(2 ^ 63 : Int) ≤ -1 ∧ (-1 : Int) < 0) ∧
    createCalls (Execute envOk ⟨.cmdBuildTree, [(.long "first", .int64 (-1))], "data.nt"⟩).events
      = [("data.nt", 18446744073709551615, false, 0)] :=
  ⟨by decide, (negative_first_wraps_around envOk "data.nt" (-1) (by decide) (by decide)).2.2.1⟩


/-! ## Measurement -/

theorem profiling_not_work (e : Event) (h : e.isProfilingOp = true) :
    e.isSubcommandWork = false := by
  cases e <;> simp_all [Event.isProfilingOp, Event.isSubcommandWork]

theorem work_not_profiling (e : Event) (h : e.isSubcommandWork = true) :
    e.isProfilingOp = false ∧ e.isTimeNow = false ∧ e.isPrintExecutionTime = false := by
  cases e <;>
    simp_all [Event.isProfilingOp, Event.isSubcommandWork, Event.isTimeNow,
      Event.isPrintExecutionTime]

theorem heapProfileFails_preRun_vars (env : Env) (v : Vars) :
    heapProfileFails env (PersistentPreRun env v).vars ↔ heapProfileFails env v := by
  obtain ⟨t, ht⟩ := preRun_vars_flags env v
  rw [ht]
  simp [heapProfileFails]

/-- Where a call of a run comes from: the `Run` body, the pre-run hook or the post-run
hook; a hook makes a call only under the flag that asks for it. -/
theorem event_origin (env : Env) (inv : Invocation) (v : Vars)
    (h : parseFlags (inv.cmd.Flags ++ cmdRootPersistentFlags) inv.given definedVars = .ok v)
    (e : Event) (he : e ∈ (Execute env inv).events) :
    e.isSubcommandWork = true ∨
    (v.cpuprofile ≠ "" ∧ (e = .osCreate v.cpuprofile ∨ e = .startCPUProfile v.cpuprofile
      ∨ e = .stopCPUProfile)) ∨
    (v.traceFile ≠ "" ∧ (e = .osCreate v.traceFile ∨ e = .traceStart v.traceFile
      ∨ e = .traceStop)) ∨
    (v.memprofile ≠ "" ∧ (e = .osCreate v.memprofile ∨ e = .runtimeGC
      ∨ e = .writeHeapProfile v.memprofile ∨ e = .fileClose v.memprofile)) ∨
    (v.measureTime = true ∧ (e = .timeNow env.clockAtPreRun ∨ ∃ t, e = .printExecutionTime t)) := by
  rw [Execute_events env inv v h] at he
  obtain ⟨t, ht⟩ := preRun_vars_flags env v
  rw [ht] at he
  rw [preRun_events_eq, postRun_events_eq] at he
  simp only [List.mem_append] at he
  rcases he with (he | he) | he
  · have := startCpuProfiling_mem env v e he
    tauto
  · split at he
    · simp only [List.mem_append] at he
      rcases he with he | he
      · have := startTracing_mem env v e he
        tauto
      · split at he
        · unfold startMeasuringTime skip at he
          split at he
          · simp at he
            tauto
          · simp at he
        · simp at he
    · simp at he
  · split at he
    · simp only [List.mem_append] at he
      rcases he with he | he
      · exact Or.inl (run_events_work _ _ _ _ e he)
      · split at he
        · simp only [List.mem_append] at he
          rcases he with he | he | he | he
          · unfold printMeasuredTime skip emit at he
            split at he
            · rename_i hm
              simp at he
              right; right; right; right
              exact ⟨hm, Or.inr ⟨_, he⟩⟩
            · simp at he
          · unfold stopCpuProfiling skip emit at he
            split at he
            · rename_i hm
              simp at he
              right; left
              exact ⟨hm, Or.inr (Or.inr he)⟩
            · simp at he
          · have := writeMemoryProfile_mem env _ e he
            simp only at this
            tauto
          · split at he
            · unfold stopTracing skip emit at he
              split at he
              · rename_i hm
                simp at he
                right; right; left
                exact ⟨hm, Or.inr (Or.inr he)⟩
              · simp at he
            · simp at he
        · simp at he
    · simp at he


theorem preRun_events_ok (env : Env) (v : Vars) (h1 : ¬ cpuProfileSetupFails env v)
    (h2 : ¬ traceSetupFails env v) :
    (PersistentPreRun env v).events =
      (if v.cpuprofile ≠ "" then [.osCreate v.cpuprofile, .startCPUProfile v.cpuprofile] else [])
      ++ ((if v.traceFile ≠ "" then [.osCreate v.traceFile, .traceStart v.traceFile] else [])
      ++ (if v.measureTime = true then [.timeNow env.clockAtPreRun] else [])) := by
  rw [preRun_events_eq, (startCpuProfiling_completed env v).mpr h1,
    (startTracing_completed env v).mpr h2, startCpuProfiling_events env v h1,
    startTracing_events env v h2]
  simp only [if_true]
  congr 2
  unfold startMeasuringTime skip
  split <;> rfl

theorem postRun_events_ok (env : Env) (v : Vars) (h : ¬ heapProfileFails env v) :
    (PersistentPostRun env v).events =
      (if v.measureTime = true then
          [.printExecutionTime ((env.clockAtPostRun : Int) - (v.timeCheckpoint : Int))] else [])
      ++ ((if v.cpuprofile ≠ "" then [.stopCPUProfile] else [])
      ++ ((if v.memprofile ≠ "" then
          [.osCreate v.memprofile, .runtimeGC, .writeHeapProfile v.memprofile,
            .fileClose v.memprofile] else [])
      ++ (if v.traceFile ≠ "" then [.traceStop] else []))) := by
  rw [postRun_events_eq, (writeMemoryProfile_completed env v).mpr h,
    writeMemoryProfile_events env v h]
  simp only [if_true]
  unfold printMeasuredTime stopCpuProfiling stopTracing skip emit
  congr 1
  · split <;> rfl
  · congr 1
    · split <;> rfl
    · congr 1
      split <;> rfl

/-- C4 fails for the heap profile, at `build-tree --memprofile mem.prof data.nt` when
the file cannot be created: `schematree.Create` has been called when the process
is aborted. -/
theorem heap_profile_failure_follows_work :
    envCreateFails.createMemprofile "mem.prof" = some "open mem.prof: permission denied" ∧
    Execute envCreateFails ⟨.cmdBuildTree, [(.long "memprofile", .str "mem.prof")], "data.nt"⟩
      = ⟨[.schematreeCreate "data.nt" 0 false 0, .osCreate "mem.prof"],
          .fatal "could not create memory profile: open mem.prof: permission denied",
          { definedVars with memprofile := "mem.prof" }⟩ ∧
    (Event.schematreeCreate "data.nt" 0 false 0).isSubcommandWork = true := by
  refine ⟨by decide, by decide, by decide⟩

/-- C4 as amended: when the CPU profile or the trace is requested and creating or
starting it fails, the run is aborted by `log.Fatal` and no call of the `Run` body is
made; when the heap profile is requested and creating or writing it fails, the run
is aborted by `log.Fatal` too, after the `Run` body has made its calls. -/
theorem setup_failure_aborts (env : Env) (inv : Invocation) (v : Vars)
    (h : parseFlags (inv.cmd.Flags ++ cmdRootPersistentFlags) inv.given definedVars = .ok v) :
    (cpuProfileSetupFails env v ∨ traceSetupFails env v →
      (Execute env inv).outcome.isFatal = true ∧
      (Execute env inv).events = (PersistentPreRun env v).events ∧
      ∀ e ∈ (Execute env inv).events, e.isSubcommandWork = false) ∧
    (¬ cpuProfileSetupFails env v → ¬ traceSetupFails env v → heapProfileFails env v →
      (inv.cmd.Run env inv.dataset (PersistentPreRun env v).vars).outcome = .completed →
      (Execute env inv).outcome.isFatal = true ∧
      ∃ e ∈ (Execute env inv).events, e.isSubcommandWork = true) := by
  constructor
  · intro hf
    have hfat := preRun_fatal env v hf
    have hnc : (PersistentPreRun env v).outcome ≠ .completed := by
      intro hc
      rw [hc] at hfat
      simp [Outcome.isFatal] at hfat
    have hev : (Execute env inv).events = (PersistentPreRun env v).events := by
      rw [Execute_events env inv v h]
      simp [hnc]
    refine ⟨?_, hev, ?_⟩
    · rw [Execute_outcome env inv v h]
      simp [hnc, hfat]
    · rw [hev]
      exact preRun_not_work env v
  · intro h1 h2 h3 hrun
    have hc : (PersistentPreRun env v).outcome = .completed := (preRun_completed env v).mpr ⟨h1, h2⟩
    constructor
    · rw [Execute_outcome env inv v h]
      simp only [hc, hrun, if_true]
      rw [postRun_outcome_eq]
      exact writeMemoryProfile_fatal env _ ((heapProfileFails_preRun_vars env v).mpr h3)
    · rw [Execute_events env inv v h]
      simp only [hc, if_true]
      have hne := run_events_ne_nil inv.cmd env inv.dataset (PersistentPreRun env v).vars
      obtain ⟨e, he⟩ := List.exists_mem_of_ne_nil _ hne
      exact ⟨e, by simp [he], run_events_work _ _ _ _ e he⟩

/-- Witness of the amended C4: `build-tree --cpuprofile cpu.prof data.nt` when the file
cannot be created. -/
theorem setup_failure_aborts_witness :
    cpuProfileSetupFails envCreateFails { definedVars with cpuprofile := "cpu.prof" } ∧
    (Execute envCreateFails
        ⟨.cmdBuildTree, [(.long "cpuprofile", .str "cpu.prof")], "data.nt"⟩).outcome.isFatal
      = true ∧
    (Execute envCreateFails
        ⟨.cmdBuildTree, [(.long "cpuprofile", .str "cpu.prof")], "data.nt"⟩).events
      = (PersistentPreRun envCreateFails { definedVars with cpuprofile := "cpu.prof" }).events :=
  have hf : cpuProfileSetupFails envCreateFails { definedVars with cpuprofile := "cpu.prof" } :=
    ⟨by decide, Or.inl (by decide)⟩
  have key := (setup_failure_aborts envCreateFails
    ⟨.cmdBuildTree, [(.long "cpuprofile", .str "cpu.prof")], "data.nt"⟩
    { definedVars with cpuprofile := "cpu.prof" } rfl).1 (Or.inl hf)
  ⟨hf, key.1, key.2.1⟩


theorem preRun_defaults (env : Env) (v : Vars) (h1 : v.cpuprofile = "") (h2 : v.traceFile = "")
    (h3 : v.measureTime = false) : PersistentPreRun env v = ⟨[], .completed, v⟩ := by
  simp [PersistentPreRun, startCpuProfiling, startTracing, startMeasuringTime, Result.andThen,
    skip, h1, h2, h3]

theorem postRun_defaults (env : Env) (v : Vars) (h1 : v.cpuprofile = "") (h2 : v.traceFile = "")
    (h3 : v.measureTime = false) (h4 : v.memprofile = "") :
    PersistentPostRun env v = ⟨[], .completed, v⟩ := by
  simp [PersistentPostRun, printMeasuredTime, stopCpuProfiling, writeMemoryProfile, stopTracing,
    Result.andThen, skip, h1, h2, h3, h4]

/-- C8 fails when a run is cut short: at `build-tree --cpuprofile cpu.prof --trace
trace.out data.nt` when the CPU profile file cannot be created, no trace is started
although `--trace` is set; at `build-tree --time data.nt` when `schematree.Create`
fails, no execution time is printed although `--time` is set. -/
theorem effects_missing_in_aborted_runs :
    (Execute envCreateFails ⟨.cmdBuildTree,
        [(.long "cpuprofile", .str "cpu.prof"), (.long "trace", .str "trace.out")], "data.nt"⟩
      = ⟨[.osCreate "cpu.prof"],
          .fatal "could not create CPU profile: open cpu.prof: permission denied",
          { definedVars with cpuprofile := "cpu.prof", traceFile := "trace.out" }⟩ ∧
      Event.traceStart "trace.out" ∉ (Execute envCreateFails ⟨.cmdBuildTree,
        [(.long "cpuprofile", .str "cpu.prof"), (.long "trace", .str "trace.out")],
        "data.nt"⟩).events) ∧
    (Execute envBuildFails ⟨.cmdBuildTree, [(.long "time", .bool true)], "data.nt"⟩
      = ⟨[.timeNow 10, .schematreeCreate "data.nt" 0 false 0],
          .panicked "open data.nt: no such file or directory\n",
          { definedVars with measureTime := true, timeCheckpoint := 10 }⟩) := by
  refine ⟨⟨by decide, by decide⟩, by decide⟩

/-- C8 as amended: in every run a hook makes a measurement call only if the flag of
that measurement is set; when no measurement call fails and the `Run` body runs to
its end, it makes the calls of every measurement whose flag is set; with the four
flags at their defaults the hooks make no call at all. -/
theorem measurement_effects_follow_flags (env : Env) (inv : Invocation) (v : Vars)
    (h : parseFlags (inv.cmd.Flags ++ cmdRootPersistentFlags) inv.given definedVars = .ok v) :
    ((∀ p, .osCreate p ∈ (Execute env inv).events →
        (v.cpuprofile ≠ "" ∧ p = v.cpuprofile) ∨ (v.traceFile ≠ "" ∧ p = v.traceFile)
          ∨ (v.memprofile ≠ "" ∧ p = v.memprofile)) ∧
      (∀ p, .startCPUProfile p ∈ (Execute env inv).events →
        v.cpuprofile ≠ "" ∧ p = v.cpuprofile) ∧
      (.stopCPUProfile ∈ (Execute env inv).events → v.cpuprofile ≠ "") ∧
      (∀ p, .writeHeapProfile p ∈ (Execute env inv).events →
        v.memprofile ≠ "" ∧ p = v.memprofile) ∧
      (∀ p, .traceStart p ∈ (Execute env inv).events → v.traceFile ≠ "" ∧ p = v.traceFile) ∧
      (.traceStop ∈ (Execute env inv).events → v.traceFile ≠ "") ∧
      (∀ t, .printExecutionTime t ∈ (Execute env inv).events → v.measureTime = true)) ∧
    (measurementsSucceed env v →
      (inv.cmd.Run env inv.dataset (PersistentPreRun env v).vars).outcome = .completed →
      (v.cpuprofile ≠ "" →
        .osCreate v.cpuprofile ∈ (Execute env inv).events ∧
        .startCPUProfile v.cpuprofile ∈ (Execute env inv).events ∧
        .stopCPUProfile ∈ (Execute env inv).events) ∧
      (v.memprofile ≠ "" →
        .osCreate v.memprofile ∈ (Execute env inv).events ∧
        .writeHeapProfile v.memprofile ∈ (Execute env inv).events) ∧
      (v.traceFile ≠ "" →
        .osCreate v.traceFile ∈ (Execute env inv).events ∧
        .traceStart v.traceFile ∈ (Execute env inv).events ∧
        .traceStop ∈ (Execute env inv).events) ∧
      (v.measureTime = true →
        .printExecutionTime ((env.clockAtPostRun : Int) - (env.clockAtPreRun : Int))
          ∈ (Execute env inv).events)) ∧
    (v.cpuprofile = "" → v.memprofile = "" → v.traceFile = "" → v.measureTime = false →
      PersistentPreRun env v = ⟨[], .completed, v⟩ ∧
      PersistentPostRun env v = ⟨[], .completed, v⟩ ∧
      (Execute env inv).events = (inv.cmd.Run env inv.dataset v).events) := by
  refine ⟨⟨?_, ?_, ?_, ?_, ?_, ?_, ?_⟩, ?_, ?_⟩
  · intro p hp
    have := event_origin env inv v h _ hp
    simp only [Event.isSubcommandWork, Event.osCreate.injEq] at this
    simp at this
    tauto
  · intro p hp
    simpa [Event.isSubcommandWork] using event_origin env inv v h _ hp
  · intro hp
    simpa [Event.isSubcommandWork] using event_origin env inv v h _ hp
  · intro p hp
    simpa [Event.isSubcommandWork] using event_origin env inv v h _ hp
  · intro p hp
    simpa [Event.isSubcommandWork] using event_origin env inv v h _ hp
  · intro hp
    simpa [Event.isSubcommandWork] using event_origin env inv v h _ hp
  · intro t hp
    simpa [Event.isSubcommandWork] using event_origin env inv v h _ hp
  · rintro ⟨h1, h2, h3⟩ hrun
    have hc : (PersistentPreRun env v).outcome = .completed := (preRun_completed env v).mpr ⟨h1, h2⟩
    have hE := Execute_events env inv v h
    simp only [hc, hrun, if_true] at hE
    rw [postRun_events_ok env _ ((heapProfileFails_preRun_vars env v).not.mpr h3),
      preRun_events_ok env v h1 h2] at hE
    have hv := preRun_vars_eq env v
    refine ⟨fun hf => ?_, fun hf => ?_, fun hf => ?_, fun hf => ?_⟩
    · obtain ⟨t, ht⟩ := preRun_vars_flags env v
      rw [ht] at hE
      rw [hE]
      simp [hf]
    · obtain ⟨t, ht⟩ := preRun_vars_flags env v
      rw [ht] at hE
      rw [hE]
      simp [hf]
    · obtain ⟨t, ht⟩ := preRun_vars_flags env v
      rw [ht] at hE
      rw [hE]
      simp [hf]
    · simp only [hc, hf, and_self, if_true] at hv
      rw [hv] at hE
      rw [hE]
      simp [hf]
  · intro h1 h2 h3 h4
    have hpre := preRun_defaults env v h1 h3 h4
    have hpost := postRun_defaults env v h1 h3 h4 h2
    refine ⟨hpre, hpost, ?_⟩
    rw [Execute_events env inv v h, hpre]
    simp only [if_true, List.nil_append, hpost]
    split <;> simp

/-- Witness of the amended C8: `build-tree --cpuprofile cpu.prof -t data.nt` in an
environment where every call succeeds. -/
theorem measurement_effects_follow_flags_witness :
    measurementsSucceed envOk { definedVars with cpuprofile := "cpu.prof", measureTime := true } ∧
    Event.startCPUProfile "cpu.prof" ∈ (Execute envOk ⟨.cmdBuildTree,
      [(.long "cpuprofile", .str "cpu.prof"), (.short "t", .bool true)], "data.nt"⟩).events ∧
    Event.printExecutionTime 15 ∈ (Execute envOk ⟨.cmdBuildTree,
      [(.long "cpuprofile", .str "cpu.prof"), (.short "t", .bool true)], "data.nt"⟩).events :=
  have hs : measurementsSucceed envOk
      { definedVars with cpuprofile := "cpu.prof", measureTime := true } := by
    simp [measurementsSucceed, cpuProfileSetupFails, traceSetupFails, heapProfileFails, envOk]
  have key := (measurement_effects_follow_flags envOk ⟨.cmdBuildTree,
      [(.long "cpuprofile", .str "cpu.prof"), (.short "t", .bool true)], "data.nt"⟩
      { definedVars with cpuprofile := "cpu.prof", measureTime := true } rfl).2.1 hs (by decide)
  ⟨hs, (key.1 (by decide)).2.1, key.2.2.2 rfl⟩


theorem measuredInterval_of_profiling (ops : List Event)
    (hops : ∀ e ∈ ops, e.isProfilingOp = true) : measuredInterval ops = [] := by
  have hd : ops.dropWhile (fun e => !e.isTimeNow) = [] := by
    rw [List.dropWhile_eq_nil_iff]
    intro e he
    have := hops e he
    cases e <;> simp_all [Event.isProfilingOp, Event.isTimeNow]
  simp [measuredInterval, hd]

theorem measuredInterval_of_shape (ops R X : List Event) (c : Nat)
    (hops : ∀ e ∈ ops, e.isProfilingOp = true) (hR : ∀ e ∈ R, e.isSubcommandWork = true)
    (hX : X = [] ∨ ∃ t rest, X = .printExecutionTime t :: rest) :
    measuredInterval (ops ++ .timeNow c :: (R ++ X)) = R := by
  have h1 : ∀ e ∈ ops, (fun e : Event => !e.isTimeNow) e = true := by
    intro e he
    have := hops e he
    cases e <;> simp_all [Event.isProfilingOp, Event.isTimeNow]
  have h2 : ∀ e ∈ R, (fun e : Event => !e.isPrintExecutionTime) e = true := by
    intro e he
    have := (work_not_profiling e (hR e he)).2.2
    simp [this]
  unfold measuredInterval
  rw [List.dropWhile_append_of_pos h1]
  rw [List.dropWhile_cons_of_neg (by simp [Event.isTimeNow])]
  simp only [List.drop_one, List.tail_cons]
  rw [List.takeWhile_append_of_pos h2]
  rcases hX with hX | ⟨t, rest, hX⟩
  · simp [hX]
  · simp [hX, Event.isPrintExecutionTime]

/-- C9: with `--time` set, the time checkpoint is the last call of the pre-run hook,
after every profiling call it makes; the elapsed time is printed by the first call
of the post-run hook, before every profiling call it makes; so the calls made
between the checkpoint and the printing are those of the `Run` body, none of them
a profiling call. -/
theorem time_measurement_excludes_profiling (env : Env) (v : Vars)
    (ht : v.measureTime = true) :
    (∃ ops, (∀ e ∈ ops, e.isProfilingOp = true) ∧
      (PersistentPreRun env v).events =
        ops ++ (if (PersistentPreRun env v).outcome = .completed
          then [.timeNow env.clockAtPreRun] else [])) ∧
    (∃ ops, (∀ e ∈ ops, e.isProfilingOp = true) ∧
      (PersistentPostRun env v).events =
        .printExecutionTime ((env.clockAtPostRun : Int) - (v.timeCheckpoint : Int)) :: ops) ∧
    (∀ inv : Invocation,
      parseFlags (inv.cmd.Flags ++ cmdRootPersistentFlags) inv.given definedVars = .ok v →
      measuredInterval (Execute env inv).events =
        (if (PersistentPreRun env v).outcome = .completed
          then (inv.cmd.Run env inv.dataset (PersistentPreRun env v).vars).events else []) ∧
      ∀ e ∈ measuredInterval (Execute env inv).events, e.isProfilingOp = false) := by
  have hpre : ∃ ops, (∀ e ∈ ops, e.isProfilingOp = true) ∧
      (PersistentPreRun env v).events =
        ops ++ (if (PersistentPreRun env v).outcome = .completed
          then [.timeNow env.clockAtPreRun] else []) := by
    rw [preRun_events_eq, preRun_outcome_eq]
    have hm : (startMeasuringTime env v).events = [.timeNow env.clockAtPreRun] := by
      simp [startMeasuringTime, ht]
    by_cases h1 : (startCpuProfiling env v).outcome = .completed
    · by_cases h2 : (startTracing env v).outcome = .completed
      · refine ⟨(startCpuProfiling env v).events ++ (startTracing env v).events, ?_, ?_⟩
        · intro e he
          rcases List.mem_append.mp he with he | he
          · exact startCpuProfiling_profiling env v e he
          · exact startTracing_profiling env v e he
        · simp [h1, h2, hm]
      · refine ⟨(startCpuProfiling env v).events ++ (startTracing env v).events, ?_, ?_⟩
        · intro e he
          rcases List.mem_append.mp he with he | he
          · exact startCpuProfiling_profiling env v e he
          · exact startTracing_profiling env v e he
        · simp [h1, h2]
    · exact ⟨(startCpuProfiling env v).events, startCpuProfiling_profiling env v, by simp [h1]⟩
  have hpost : ∀ w : Vars, w.measureTime = true →
      ∃ ops, (∀ e ∈ ops, e.isProfilingOp = true) ∧
      (PersistentPostRun env w).events =
        .printExecutionTime ((env.clockAtPostRun : Int) - (w.timeCheckpoint : Int)) :: ops := by
    intro w hw
    rw [postRun_events_eq]
    refine ⟨(stopCpuProfiling w).events ++ ((writeMemoryProfile env w).events ++
        if (writeMemoryProfile env w).outcome = .completed then (stopTracing w).events
        else []), ?_, ?_⟩
    · intro e he
      simp only [List.mem_append] at he
      rcases he with he | he | he
      · unfold stopCpuProfiling skip emit at he
        split at he <;> simp_all [Event.isProfilingOp]
      · exact writeMemoryProfile_profiling env w e he
      · split at he
        · unfold stopTracing skip emit at he
          split at he <;> simp_all [Event.isProfilingOp]
        · simp at he
    · simp [printMeasuredTime, hw, emit]
  refine ⟨hpre, hpost v ht, fun inv h => ?_⟩
  have key : measuredInterval (Execute env inv).events =
      (if (PersistentPreRun env v).outcome = .completed
        then (inv.cmd.Run env inv.dataset (PersistentPreRun env v).vars).events else []) := by
    obtain ⟨ops, hops, hev⟩ := hpre
    rw [Execute_events env inv v h, hev]
    by_cases hc : (PersistentPreRun env v).outcome = .completed
    · simp only [hc, if_true]
      have hw : (PersistentPreRun env v).vars.measureTime = true := by
        obtain ⟨t, htv⟩ := preRun_vars_flags env v
        rw [htv]
        exact ht
      have hX : (if (inv.cmd.Run env inv.dataset (PersistentPreRun env v).vars).outcome
            = .completed
          then (PersistentPostRun env (PersistentPreRun env v).vars).events else []) = [] ∨
          ∃ t rest, (if (inv.cmd.Run env inv.dataset (PersistentPreRun env v).vars).outcome
              = .completed
            then (PersistentPostRun env (PersistentPreRun env v).vars).events else [])
            = .printExecutionTime t :: rest := by
        split
        · obtain ⟨ops2, _, h2⟩ := hpost _ hw
          exact Or.inr ⟨_, ops2, h2⟩
        · exact Or.inl rfl
      have := measuredInterval_of_shape ops _ _ env.clockAtPreRun hops
        (run_events_work inv.cmd env inv.dataset (PersistentPreRun env v).vars) hX
      simpa using this
    · simp only [hc, if_false, List.append_nil]
      exact measuredInterval_of_profiling ops hops
  refine ⟨key, fun e he => ?_⟩
  rw [key] at he
  split at he
  · exact (work_not_profiling e (run_events_work _ _ _ _ e he)).1
  · simp at he

/-- Witness of C9: `build-tree -t --cpuprofile cpu.prof --memprofile mem.prof --trace
trace.out data.nt` in an environment where every call succeeds. -/
theorem time_measurement_excludes_profiling_witness :
    ({ definedVars with
        measureTime := true, cpuprofile := "cpu.prof", memprofile := "mem.prof",
        traceFile := "trace.out" } : Vars).measureTime = true ∧
    measuredInterval (Execute envOk ⟨.cmdBuildTree,
        [(.short "t", .bool true), (.long "cpuprofile", .str "cpu.prof"),
          (.long "memprofile", .str "mem.prof"), (.long "trace", .str "trace.out")],
        "data.nt"⟩).events
      = [.schematreeCreate "data.nt" 0 false 0] :=
  ⟨rfl, ((time_measurement_excludes_profiling envOk
      { definedVars with
        measureTime := true, cpuprofile := "cpu.prof", memprofile := "mem.prof",
        traceFile := "trace.out" } rfl).2.2
      ⟨.cmdBuildTree,
        [(.short "t", .bool true), (.long "cpuprofile", .str "cpu.prof"),
          (.long "memprofile", .str "mem.prof"), (.long "trace", .str "trace.out")],
        "data.nt"⟩ rfl).1.trans (by decide)⟩

end SchemaTreeBuilder
